import Mathlib

/-!
Verification of the liveness-and-dispatch core of pyblish-qml
(`src/pyblish_qml/app.py`), shallowly embedded in Lean 4.

Modelled here:

* the `timer` dictionary created in `Application.listen` (app.py lines
  187-190) as a structure `TimerDict`; the heartbeat branch of
  `message_monitor` (lines 201-203) writes the key `"value"` — not the key
  `"time"` that `heartbeat_monitor` reads — so the dict keeps both fields;
* the watchdog loop `heartbeat_monitor` (lines 226-232): each iteration
  sleeps `interval` seconds and emits `server_unresponsive` when
  `timer["time"] > timer["interval"] * timer["intervals_before_death"]`,
  with no break, so the loop never stops ticking;
* the message-pump loop `message_monitor` (lines 192-224) as a recursive
  function over a script of `push()` outcomes, producing the timer state,
  the list of dispatched messages, the emitted Qt-signal/echo events, the
  number of pull attempts and the loop outcome;
* the close-event branch of `Window.event` (lines 40-59) as a pure
  function of the shift modifier, the controller activity states and the
  `keep_alive` flag, plus its reading in the spec's Accept / Reject /
  HideInstead vocabulary;
* `Application.show` (lines 106-146) as an ordered trace of its side
  effects, and `Application.hide` (lines 148-157) as a state transform.

Timestamps (`time.time()` values) are rationals; only assignment and
order comparison are performed on them in the source.
-/

namespace PyblishQml

/-- Typed message vocabulary from the spec's data model: the class of a raw
token pulled from the host. -/
inductive Message
  | Heartbeat
  | Show
  | Close
  | Kill
  | Info (text : String)
  deriving DecidableEq, Repr

/-- Classification of a raw token, following the if/elif chain on `message`
in `message_monitor` (app.py lines 201-220): four reserved keywords, any
other token is data carried along. -/
def classify (message : String) : Message :=
  if message = "heartbeat" then Message.Heartbeat
  else if message = "show" then Message.Show
  else if message = "close" then Message.Close
  else if message = "kill" then Message.Kill
  else Message.Info message

/-- The `timer` dictionary of `Application.listen` (app.py lines 187-190).
The literal keys `"time"`, `"count"`, `"interval"` and
`"intervals_before_death"` are present from creation; the key `"value"` is
absent until the heartbeat branch of `message_monitor` first writes it
(line 202), hence an `Option`. -/
structure TimerDict where
  time : ℚ
  count : ℕ
  interval : ℚ
  intervals_before_death : ℕ
  value : Option ℚ
  deriving DecidableEq, Repr

/-- The dictionary literal at app.py lines 187-190:
`{"time": 0, "count": 0, "interval": 1, "intervals_before_death": 2}`. -/
def initTimer : TimerDict :=
  { time := 0, count := 0, interval := 1, intervals_before_death := 2,
    value := none }

/-- Effect of the `message == "heartbeat"` branch (app.py lines 201-203):
`timer["value"] = time.time()` and `timer["count"] += 1`, where `now` is
the value returned by `time.time()`. The key `"time"` is not touched. -/
def onHeartbeat (timer : TimerDict) (now : ℚ) : TimerDict :=
  { timer with value := some now, count := timer.count + 1 }

/-- The condition tested by each `heartbeat_monitor` iteration (app.py
lines 229-230): `timer["time"] > timer["interval"] *
timer["intervals_before_death"]`. -/
def watchdogFires (timer : TimerDict) : Bool :=
  decide (timer.time > timer.interval * (timer.intervals_before_death : ℚ))

/-- Number of `server_unresponsive` emissions produced by the first `ticks`
iterations of the `heartbeat_monitor` loop (app.py lines 226-232) during a
silence episode, i.e. while the shared timer dict holds the fixed value
`timer` (no heartbeat branch runs in between). Each iteration sleeps
`interval` seconds, re-tests the same condition and — the loop body has no
break — continues ticking regardless of the outcome. -/
def watchdogEmissions (timer : TimerDict) (ticks : ℕ) : ℕ :=
  match ticks with
  | 0 => 0
  | n + 1 => watchdogEmissions timer n + (if watchdogFires timer then 1 else 0)

/-- Observable effects raised by the background loops: Qt signal emissions
and `util.echo` log lines. -/
inductive Event
  | ShowSignal
  | QuitSignal
  | InfoSignal (text : String)
  | EchoMsg (text : String)
  | ServerUnresponsive
  deriving DecidableEq, Repr

/-- Outcome of one `self.host.push()` call in `message_monitor`: either a
message string together with the `time.time()` value current when it is
handled, or a raised exception carrying a message. -/
inductive PullResult
  | ok (message : String) (now : ℚ)
  | err (msg : String)
  deriving DecidableEq, Repr

/-- How a `message_monitor` run ends relative to a finite script of pull
outcomes: still looping (script exhausted, blocked on the next `push()`),
stopped via `break` after the unresponsive emission, or the whole process
gone through `os._exit`. -/
inductive PumpOutcome
  | exhausted
  | stopped
  | exited (code : ℕ)
  deriving DecidableEq, Repr

/-- Aggregate result of running `message_monitor` against a script. -/
structure PumpRun where
  timer : TimerDict
  dispatched : List Message
  events : List Event
  pulls : ℕ
  outcome : PumpOutcome
  deriving DecidableEq, Repr

/-- The echo text of the `kill` branch (app.py lines 212-214). -/
def killEcho : String :=
  "Kill message received from server, shutting down NOW!"

/-- The text emitted on `controller.info` for an unhandled message
(app.py lines 218-220). -/
def infoText (message : String) : String :=
  "Unhandled incoming message: \"" ++ message ++ "\""

/-- The `message_monitor` loop (app.py lines 192-224) run against a finite
script of `push()` outcomes. A raised exception echoes its message, emits
`server_unresponsive` and breaks; `"heartbeat"` updates the timer dict;
`"show"` and `"close"` emit `show_signal` / `quit_signal`; `"kill"` echoes
and calls `os._exit(1)`; anything else emits `controller.info` with the
unhandled-message text. Each handled message counts one pull attempt. -/
def pumpRun (timer : TimerDict) (script : List PullResult) : PumpRun :=
  match script with
  | [] => ⟨timer, [], [], 0, PumpOutcome.exhausted⟩
  | PullResult.err m :: _ =>
      ⟨timer, [], [Event.EchoMsg m, Event.ServerUnresponsive], 1,
        PumpOutcome.stopped⟩
  | PullResult.ok msg now :: rest =>
      if msg = "heartbeat" then
        let r := pumpRun (onHeartbeat timer now) rest
        ⟨r.timer, Message.Heartbeat :: r.dispatched, r.events,
          r.pulls + 1, r.outcome⟩
      else if msg = "show" then
        let r := pumpRun timer rest
        ⟨r.timer, Message.Show :: r.dispatched,
          Event.ShowSignal :: r.events, r.pulls + 1, r.outcome⟩
      else if msg = "close" then
        let r := pumpRun timer rest
        ⟨r.timer, Message.Close :: r.dispatched,
          Event.QuitSignal :: r.events, r.pulls + 1, r.outcome⟩
      else if msg = "kill" then
        ⟨timer, [Message.Kill], [Event.EchoMsg killEcho], 1,
          PumpOutcome.exited 1⟩
      else
        let r := pumpRun timer rest
        ⟨r.timer, Message.Info msg :: r.dispatched,
          Event.InfoSignal (infoText msg) :: r.events, r.pulls + 1,
          r.outcome⟩

/-- The events dispatched for one successfully pulled message, per branch
of `message_monitor` (the heartbeat branch emits no signal; it mutates the
timer dict). -/
def dispatchOf (msg : String) : List Event :=
  if msg = "heartbeat" then []
  else if msg = "show" then [Event.ShowSignal]
  else if msg = "close" then [Event.QuitSignal]
  else if msg = "kill" then [Event.EchoMsg killEcho]
  else [Event.InfoSignal (infoText msg)]

/-- Result of the close-event branch of `Window.event` (app.py lines
40-59) on the Qt event object and the window: whether `event.accept()` was
called (close honoured) and whether `self.parent.hide()` was called. -/
structure CloseEventResult where
  accepted : Bool
  hideCalled : Bool
  deriving DecidableEq, Repr

/-- The close-event branch of `Window.event` (app.py lines 40-59) as a
pure function: `shift_pressed` from the keyboard modifiers, the
controller's activity states, and the application's `keep_alive` flag. -/
def windowCloseEvent (shift_pressed : Bool) (states : List String)
    (keep_alive : Bool) : CloseEventResult :=
  if shift_pressed then ⟨true, false⟩
  else if states.contains "publishing" then ⟨false, false⟩
  else if !keep_alive then ⟨true, false⟩
  else ⟨false, true⟩

/-- The spec's decision vocabulary for the Window Close Policy. -/
inductive CloseDecision
  | Accept
  | Reject
  | HideInstead
  deriving DecidableEq, Repr

/-- Reading of `windowCloseEvent` in the spec's vocabulary: accepting the
event is `Accept`, ignoring it while hiding the window is `HideInstead`,
ignoring it outright is `Reject`. -/
def decide (operatorForcedOverride : Bool) (activityStates : List String)
    (keepAlive : Bool) : CloseDecision :=
  let r := windowCloseEvent operatorForcedOverride activityStates keepAlive
  if r.hideCalled then CloseDecision.HideInstead
  else if r.accepted then CloseDecision.Accept
  else CloseDecision.Reject

/-- Side effects of `Application.show` (app.py lines 106-146), in the
order the source performs them. -/
inductive ShowAction
  | RequestActivate
  | ShowNormal
  | SetStaysOnTop
  | RestoreFlags
  | WaitReady (timeoutMs : ℕ)
  | EchoWarning (text : String)
  | EmitShow
  | ResetPipeline
  deriving DecidableEq, Repr

/-- The readiness warning text of app.py line 141. -/
def readyWarning : String := "Warning: Could not enter ready state"

/-- `Application.show` (app.py lines 106-146) as the ordered trace of its
side effects. `visible` is `window.isVisible()` on entry (so
`previously_hidden = !visible`), `states` is `controller.states`,
`onWindows` is `os.name == "nt"`, and `readyArrives` tells whether the
`controller.ready` signal fired during the `ready.wait(1000)` bounded wait
(making `len(ready) == count + 1`). The source activates and shows the
window first; only afterwards, and only when previously hidden, does it
wait for readiness (when neither "ready" nor "finished" is among the
states), then emits `controller.show` and calls `controller.reset()`. -/
def showTrace (visible : Bool) (states : List String) (onWindows : Bool)
    (readyArrives : Bool) : List ShowAction :=
  let base := [ShowAction.RequestActivate, ShowAction.ShowNormal] ++
    (if onWindows then [ShowAction.SetStaysOnTop, ShowAction.RestoreFlags]
     else [])
  if visible then base
  else
    base ++
      (if !(states.contains "ready" || states.contains "finished") then
        ShowAction.WaitReady 1000 ::
          (if readyArrives then []
           else [ShowAction.EchoWarning readyWarning])
       else []) ++
      [ShowAction.EmitShow, ShowAction.ResetPipeline]

/-- State the Orchestrator's window methods act on: window visibility and
the (externally owned) controller activity states. -/
structure OrchestratorState where
  visible : Bool
  states : List String
  deriving DecidableEq, Repr

/-- `Application.hide` (app.py lines 148-157): the `controller.hide.emit()`
call is commented out in the source; the body only calls
`self.window.hide()`. Returns the new state and the list of emitted
events (none). -/
def hide (s : OrchestratorState) : OrchestratorState × List Event :=
  ({ s with visible := false }, [])


/-! Helper lemmas. -/

theorem watchdogEmissions_of_not_fires (t : TimerDict)
    (h : watchdogFires t = false) (n : ℕ) : watchdogEmissions t n = 0 := by
  induction n with
  | zero => rfl
  | succ n ih => simp [watchdogEmissions, h, ih]

theorem watchdogEmissions_of_fires (t : TimerDict)
    (h : watchdogFires t = true) (n : ℕ) : watchdogEmissions t n = n := by
  induction n with
  | zero => rfl
  | succ n ih => simp [watchdogEmissions, h, ih]

theorem initTimer_not_fires : watchdogFires initTimer = false := by
  norm_num [watchdogFires, initTimer]

theorem serverUnresponsive_not_mem_dispatchOf (msg : String) :
    Event.ServerUnresponsive ∉ dispatchOf msg := by
  unfold dispatchOf
  split_ifs <;> simp

theorem pumpRun_script (timer : TimerDict) (oks : List (String × ℚ))
    (e : String) (hk : ∀ p ∈ oks, p.1 ≠ "kill") :
    (pumpRun timer
        (oks.map (fun p => PullResult.ok p.1 p.2) ++ [PullResult.err e])).dispatched
      = oks.map (fun p => classify p.1) ∧
    (pumpRun timer
        (oks.map (fun p => PullResult.ok p.1 p.2) ++ [PullResult.err e])).events
      = oks.flatMap (fun p => dispatchOf p.1) ++
          [Event.EchoMsg e, Event.ServerUnresponsive] ∧
    (pumpRun timer
        (oks.map (fun p => PullResult.ok p.1 p.2) ++ [PullResult.err e])).pulls
      = oks.length + 1 ∧
    (pumpRun timer
        (oks.map (fun p => PullResult.ok p.1 p.2) ++ [PullResult.err e])).outcome
      = PumpOutcome.stopped := by
  induction oks generalizing timer with
  | nil => simp [pumpRun]
  | cons p ps ih =>
      have hp : p.1 ≠ "kill" := hk p (List.mem_cons_self p ps)
      have hk2 : ∀ q ∈ ps, q.1 ≠ "kill" :=
        fun q hq => hk q (List.mem_cons_of_mem p hq)
      by_cases h1 : p.1 = "heartbeat"
      · obtain ⟨d, ev, pl, oc⟩ := ih (onHeartbeat timer p.2) hk2
        simp [pumpRun, h1, classify, dispatchOf, d, ev, pl, oc]
      · by_cases h2 : p.1 = "show"
        · obtain ⟨d, ev, pl, oc⟩ := ih timer hk2
          simp [pumpRun, h1, h2, classify, dispatchOf, d, ev, pl, oc]
        · by_cases h3 : p.1 = "close"
          · obtain ⟨d, ev, pl, oc⟩ := ih timer hk2
            simp [pumpRun, h1, h2, h3, classify, dispatchOf, d, ev, pl, oc]
          · obtain ⟨d, ev, pl, oc⟩ := ih timer hk2
            simp [pumpRun, h1, h2, h3, hp, classify, dispatchOf, d, ev, pl, oc]


/-! Claim theorems. -/

/-- C1: the spec says a heartbeat-watchdog tick emits `Unresponsive`
exactly when the elapsed silence exceeds `interval * deathThreshold`, and
with the default timer and no heartbeat ever received it fires once 2
seconds of silence have passed. In the code the watchdog never fires in
that scenario: `heartbeat_monitor` tests `timer["time"] > interval *
intervals_before_death`, and `timer["time"]` is the never-rewritten
initial 0 (the heartbeat branch writes the distinct key `"value"`), so
even at the n-th tick, whose elapsed time `n * interval` since startup
exceeds the threshold, the episode has produced zero emissions. -/
theorem C1_watchdog_silent_despite_elapsed (n : ℕ)
    (h : initTimer.interval * (initTimer.intervals_before_death : ℚ)
        < (n : ℚ) * initTimer.interval) :
    watchdogFires initTimer = false ∧ watchdogEmissions initTimer n = 0 :=
  ⟨initTimer_not_fires, watchdogEmissions_of_not_fires _ initTimer_not_fires n⟩

/-- Witness for C1 at the third tick: 3 seconds of silence exceed the
2-second threshold, yet there are zero emissions. -/
theorem C1_watchdog_silent_despite_elapsed_witness :
    initTimer.interval * (initTimer.intervals_before_death : ℚ)
        < (3 : ℚ) * initTimer.interval ∧
    watchdogEmissions initTimer 3 = 0 :=
  ⟨by norm_num [initTimer],
   (C1_watchdog_silent_despite_elapsed 3 (by norm_num [initTimer])).2⟩

/-- C2: the close-event branch of `Window.event`, read as the Window Close
Policy `decide(operatorForcedOverride, activityStates, keepAlive)`,
follows the fixed priority order: override → Accept; else the in-progress
label `"publishing"` in the activity states → Reject; else keepAlive
false → Accept; else HideInstead. -/
theorem C2_window_close_policy (o : Bool) (states : List String) (k : Bool) :
    (o = true → PyblishQml.decide o states k = CloseDecision.Accept) ∧
    (o = false → states.contains "publishing" = true →
        PyblishQml.decide o states k = CloseDecision.Reject) ∧
    (o = false → states.contains "publishing" = false → k = false →
        PyblishQml.decide o states k = CloseDecision.Accept) ∧
    (o = false → states.contains "publishing" = false → k = true →
        PyblishQml.decide o states k = CloseDecision.HideInstead) := by
  refine ⟨fun ho => ?_, fun ho hs => ?_, fun ho hs hk => ?_,
    fun ho hs hk => ?_⟩ <;> subst ho <;>
    simp_all [PyblishQml.decide, windowCloseEvent]

/-- Witness for C2 on the four rows of the spec decision table. -/
theorem C2_window_close_policy_witness :
    PyblishQml.decide true ["publishing"] true = CloseDecision.Accept ∧
    PyblishQml.decide false ["publishing"] true = CloseDecision.Reject ∧
    PyblishQml.decide false ["other"] false = CloseDecision.Accept ∧
    PyblishQml.decide false [] true = CloseDecision.HideInstead :=
  ⟨(C2_window_close_policy true ["publishing"] true).1 rfl,
   (C2_window_close_policy false ["publishing"] true).2.1 rfl (by decide),
   (C2_window_close_policy false ["other"] false).2.2.1 rfl (by decide) rfl,
   (C2_window_close_policy false [] true).2.2.2 rfl (by decide) rfl⟩

/-- C3: a pump run whose script is n-1 successful pulls followed by a
failing pull dispatches exactly those n-1 classified messages in order,
then echoes the exception and emits exactly one `server_unresponsive`,
after attempting exactly n pulls, and breaks out of the loop (outcome
stopped: no retry, no reconnection). The hypothesis excludes `"kill"`
among the first n-1 messages, since in a run that really reaches the n-th
pull none of them can have been `"kill"` — that branch exits the process
before any further pull. -/
theorem C3_pump_failure_stops_after_dispatch (oks : List (String × ℚ))
    (e : String) (hk : ∀ p ∈ oks, p.1 ≠ "kill") :
    (pumpRun initTimer
        (oks.map (fun p => PullResult.ok p.1 p.2)
          ++ [PullResult.err e])).dispatched
      = oks.map (fun p => classify p.1) ∧
    (pumpRun initTimer
        (oks.map (fun p => PullResult.ok p.1 p.2)
          ++ [PullResult.err e])).events
      = oks.flatMap (fun p => dispatchOf p.1) ++
          [Event.EchoMsg e, Event.ServerUnresponsive] ∧
    (pumpRun initTimer
        (oks.map (fun p => PullResult.ok p.1 p.2)
          ++ [PullResult.err e])).pulls
      = oks.length + 1 ∧
    (pumpRun initTimer
        (oks.map (fun p => PullResult.ok p.1 p.2)
          ++ [PullResult.err e])).outcome
      = PumpOutcome.stopped ∧
    ((pumpRun initTimer
        (oks.map (fun p => PullResult.ok p.1 p.2)
          ++ [PullResult.err e])).events).count Event.ServerUnresponsive
      = 1 := by
  obtain ⟨d, ev, pl, oc⟩ := pumpRun_script initTimer oks e hk
  refine ⟨d, ev, pl, oc, ?_⟩
  rw [ev, List.count_append]
  have h0 : (oks.flatMap (fun p => dispatchOf p.1)).count
      Event.ServerUnresponsive = 0 := by
    refine List.count_eq_zero.mpr ?_
    intro hmem
    rw [List.mem_flatMap] at hmem
    obtain ⟨p, hp, hmem⟩ := hmem
    exact serverUnresponsive_not_mem_dispatchOf p.1 hmem
  rw [h0]
  simp

/-- Witness for C3: two successful pulls (a heartbeat and an unknown
token), then a disconnect. -/
theorem C3_pump_failure_stops_after_dispatch_witness :
    (∀ p ∈ ([("heartbeat", (5 : ℚ)), ("banana", 6)] : List (String × ℚ)),
        p.1 ≠ "kill") ∧
    (pumpRun initTimer
        (([("heartbeat", (5 : ℚ)), ("banana", 6)] : List (String × ℚ)).map
            (fun p => PullResult.ok p.1 p.2) ++ [PullResult.err "gone"])).pulls
      = 3 ∧
    (pumpRun initTimer
        (([("heartbeat", (5 : ℚ)), ("banana", 6)] : List (String × ℚ)).map
            (fun p => PullResult.ok p.1 p.2) ++ [PullResult.err "gone"])).outcome
      = PumpOutcome.stopped :=
  ⟨by decide,
   (C3_pump_failure_stops_after_dispatch [("heartbeat", 5), ("banana", 6)]
      "gone" (by decide)).2.2.1,
   (C3_pump_failure_stops_after_dispatch [("heartbeat", 5), ("banana", 6)]
      "gone" (by decide)).2.2.2.1⟩

/-- C4: a pulled `"kill"` message makes the pump echo and call
`os._exit(1)` at once: the outcome is a process exit with the non-zero
status 1, only that one pull is ever attempted (the rest of the script is
never pulled), and no quit or show signal — hence no graceful-shutdown
path and no close event that could reach the Window Close Policy — is
emitted, whatever the timer state or the remaining script. -/
theorem C4_kill_exits_immediately (timer : TimerDict) (now : ℚ)
    (rest : List PullResult) :
    (pumpRun timer (PullResult.ok "kill" now :: rest)).outcome
        = PumpOutcome.exited 1 ∧
    (pumpRun timer (PullResult.ok "kill" now :: rest)).pulls = 1 ∧
    (pumpRun timer (PullResult.ok "kill" now :: rest)).events
        = [Event.EchoMsg killEcho] ∧
    Event.QuitSignal ∉
        (pumpRun timer (PullResult.ok "kill" now :: rest)).events ∧
    Event.ShowSignal ∉
        (pumpRun timer (PullResult.ok "kill" now :: rest)).events ∧
    (∀ c, (pumpRun timer (PullResult.ok "kill" now :: rest)).outcome
        = PumpOutcome.exited c → c ≠ 0) := by
  refine ⟨?_, ?_, ?_, ?_, ?_, ?_⟩
  · simp [pumpRun]
  · simp [pumpRun]
  · simp [pumpRun]
  · simp [pumpRun]
  · simp [pumpRun]
  · intro c hc
    simp [pumpRun] at hc
    omega

/-- Witness for C4: killing with an arbitrary pending script exits with
status 1, which is non-zero. -/
theorem C4_kill_exits_immediately_witness :
    (pumpRun initTimer
        [PullResult.ok "kill" 0, PullResult.ok "show" 1]).outcome
      = PumpOutcome.exited 1 ∧ (1 : ℕ) ≠ 0 :=
  ⟨(C4_kill_exits_immediately initTimer 0 [PullResult.ok "show" 1]).1,
   (C4_kill_exits_immediately initTimer 0 [PullResult.ok "show" 1]).2.2.2.2.2 1
     (C4_kill_exits_immediately initTimer 0 [PullResult.ok "show" 1]).1⟩

/-- C5: the spec says a Heartbeat sets `lastBeatAt` — the same field the
watchdog later reads — to the current time and increments `beatCount`.
The code does increment the count, but writes the current time into the
key `"value"`, leaving the watchdog-read key `"time"` — and with it the
watchdog condition — unchanged, from every starting timer state;
likewise a heartbeat processed through the pump leaves `"time"`
untouched. -/
theorem C5_heartbeat_leaves_watchdog_field (t : TimerDict) (now : ℚ) :
    (onHeartbeat t now).time = t.time ∧
    (onHeartbeat t now).value = some now ∧
    (onHeartbeat t now).count = t.count + 1 ∧
    watchdogFires (onHeartbeat t now) = watchdogFires t ∧
    (pumpRun t [PullResult.ok "heartbeat" now]).timer.time = t.time :=
  ⟨rfl, rfl, rfl, rfl, rfl⟩

/-- C6: the spec says the watchdog emits exactly once per silence episode
and then stops ticking. The code does neither: with the initial timer (no
heartbeat ever received) the condition never holds, so a silence episode
of any length produces zero emissions; and from any timer state in which
the condition does hold, the loop — having no break — emits on every
single tick of the episode. -/
theorem C6_watchdog_zero_or_storm (t : TimerDict) (n : ℕ) :
    watchdogEmissions initTimer n = 0 ∧
    (watchdogFires t = true → watchdogEmissions t n = n) :=
  ⟨watchdogEmissions_of_not_fires _ initTimer_not_fires n,
   fun h => watchdogEmissions_of_fires t h n⟩

/-- Witness for C6: zero emissions over five silent default ticks, and
five emissions in five ticks from a state satisfying the condition. -/
theorem C6_watchdog_zero_or_storm_witness :
    watchdogEmissions initTimer 5 = 0 ∧
    watchdogEmissions ⟨3, 0, 1, 2, none⟩ 5 = 5 :=
  ⟨(C6_watchdog_zero_or_storm ⟨3, 0, 1, 2, none⟩ 5).1,
   (C6_watchdog_zero_or_storm ⟨3, 0, 1, 2, none⟩ 5).2
     (by norm_num [watchdogFires])⟩

/-- C7 counterexample: with the window hidden, an empty activity-state
set, a non-Windows platform and readiness never arriving, the trace of
`Application.show` places `showNormal()` (index 1) strictly before the
bounded readiness wait (index 2): the source makes the window visible
first and only then waits, contradicting the claim that the wait comes
before the window becomes visible. -/
theorem C7_show_counterexample :
    (showTrace false [] false false).indexOf ShowAction.ShowNormal
        < (showTrace false [] false false).indexOf (ShowAction.WaitReady 1000) ∧
    ¬ ((showTrace false [] false false).indexOf (ShowAction.WaitReady 1000)
        < (showTrace false [] false false).indexOf ShowAction.ShowNormal) := by
  decide

/-- C7 amended: for every `show()` while the window is hidden and the
pipeline in no ready/finished state, the source first activates and shows
the window, then waits — bounded by the 1000 ms timeout — for readiness,
then emits the show event and resets the pipeline; the window becomes
visible in every case, no readiness warning is logged when readiness
arrives within the timeout, and exactly one readiness warning is logged
when the timeout elapses without readiness. -/
theorem C7_show_hidden_amended (states : List String) (w ra : Bool)
    (h : (states.contains "ready" || states.contains "finished") = false) :
    showTrace false states w ra
      = ([ShowAction.RequestActivate, ShowAction.ShowNormal] ++
          (if w then [ShowAction.SetStaysOnTop, ShowAction.RestoreFlags]
           else []) ++
          (ShowAction.WaitReady 1000 ::
            (if ra then [] else [ShowAction.EchoWarning readyWarning])) ++
          [ShowAction.EmitShow, ShowAction.ResetPipeline]) ∧
    ShowAction.ShowNormal ∈ showTrace false states w ra ∧
    (showTrace false states w ra).count (ShowAction.EchoWarning readyWarning)
      = (if ra then 0 else 1) := by
  have hb := h
  simp only [Bool.or_eq_false_iff] at hb
  obtain ⟨hb1, hb2⟩ := hb
  have h1 : "ready" ∉ states := by simp_all
  have h2 : "finished" ∉ states := by simp_all
  cases w <;> cases ra <;> simp [showTrace, h, h1, h2, readyWarning]

/-- Witness for C7 amended: hidden window, empty states, readiness never
arrives: exactly one readiness warning in the trace. -/
theorem C7_show_hidden_amended_witness :
    (([] : List String).contains "ready"
        || ([] : List String).contains "finished") = false ∧
    (showTrace false [] false false).count
        (ShowAction.EchoWarning readyWarning) = 1 := by
  refine ⟨by decide, ?_⟩
  have h := C7_show_hidden_amended [] false false (by decide)
  simpa using h.2.2

/-- C8: message classification is total and never raises: the four
reserved keywords map to their constructors and every other token maps to
`Info` of that token. -/
theorem C8_classify_total (t : String) :
    classify "heartbeat" = Message.Heartbeat ∧
    classify "show" = Message.Show ∧
    classify "close" = Message.Close ∧
    classify "kill" = Message.Kill ∧
    (t ∉ (["heartbeat", "show", "close", "kill"] : List String) →
        classify t = Message.Info t) := by
  refine ⟨by decide, by decide, by decide, by decide, fun h => ?_⟩
  simp only [List.mem_cons, List.not_mem_nil, or_false, not_or] at h
  obtain ⟨h1, h2, h3, h4⟩ := h
  simp [classify, h1, h2, h3, h4]

/-- Witness for C8 at the unknown token "banana". -/
theorem C8_classify_total_witness :
    classify "banana" = Message.Info "banana" :=
  (C8_classify_total "banana").2.2.2.2 (by decide)

/-- C9: `Application.hide` only hides the window: visibility becomes
Hidden, the controller activity states are untouched, and no event — in
particular no pipeline or quit event — is emitted (the
`controller.hide.emit()` line is commented out in the source), so the
process keeps running and a later `show()` can re-show the window. -/
theorem C9_hide_only_hides (s : OrchestratorState) :
    (PyblishQml.hide s).1.visible = false ∧
    (PyblishQml.hide s).1.states = s.states ∧
    (PyblishQml.hide s).2 = ([] : List Event) :=
  ⟨rfl, rfl, rfl⟩

/-- C10: `show()` with the window already visible performs none of the
hidden-path side effects — no readiness wait of any timeout, no show
event to the pipeline controller, no pipeline reset, no readiness
warning — and its whole trace is the activate/raise sequence (plus the
Windows raise workaround). -/
theorem C10_show_visible_only_raises (states : List String) (w ra : Bool) :
    showTrace true states w ra
      = [ShowAction.RequestActivate, ShowAction.ShowNormal] ++
          (if w then [ShowAction.SetStaysOnTop, ShowAction.RestoreFlags]
           else []) ∧
    (∀ tmo, ShowAction.WaitReady tmo ∉ showTrace true states w ra) ∧
    ShowAction.EmitShow ∉ showTrace true states w ra ∧
    ShowAction.ResetPipeline ∉ showTrace true states w ra ∧
    (∀ txt, ShowAction.EchoWarning txt ∉ showTrace true states w ra) := by
  cases w <;> simp [showTrace]

end PyblishQml
